import Mathlib

/-!
# Verification of the LLGL `D3D12ResourceHeap` descriptor/binding-heap subsystem

This file gives a shallow embedding of the descriptor-heap subsystem declared in
`sources/Renderer/Direct3D12/RenderState/D3D12ResourceHeap.h`.  The repository
snapshot contains only the header; where a member function's body is not part of
the snapshot, the corresponding Lean definition is modelled from the
specification's description of that operation (each such definition carries a
doc comment starting with `Modelled from the spec:`).  Whatever the header
itself fixes — the `BindingHandleLocation` bit-field packing (1-bit `heapIndex`,
31-bit `handleOffset`), the `HasBarriers` body (`barrierStride_ > 0`), and the
member layout (`uavResourceHeap_` as a flat per-set-strided vector of resource
pointers, `barriers_` as a packed count-prefixed per-set buffer with stride
`barrierStride_`) — is embedded from the source.

Resources (`ID3D12Resource*`) are modelled as natural numbers; an unbound slot
in `uavResourceHeap_` is `none` (a null pointer).  Machine `UINT` arithmetic is
modelled on `Nat` with explicit `% 2 ^ w` where the source masks (the
`BindingHandleLocation` bit-fields).
-/

namespace D3D12ResourceHeap

/-- Resource handles (`ID3D12Resource*` / `Resource&` identity) are modelled as
naturals. -/
abbrev ResourceHandle := Nat

/-! ## `BindingHandleLocation` bit-field packing (from the header)

```cpp
struct BindingHandleLocation
{
    UINT heapIndex      :  1;
    UINT handleOffset   : 31;
};
```

A C++ unsigned bit-field of width `w` stores its value modulo `2 ^ w`.  The two
fields pack into one 32-bit word: `heapIndex` occupies the low bit and
`handleOffset` the upper 31 bits. -/

/-- The packed 32-bit word of a `BindingHandleLocation`: `heapIndex` truncated
to 1 bit in the low bit, `handleOffset` truncated to 31 bits above it. -/
def bindingHandleLocationPack (heapIndex handleOffset : Nat) : Nat :=
  heapIndex % 2 + 2 * (handleOffset % 2 ^ 31)

/-- Reading the `heapIndex` bit-field back from the packed word. -/
def bindingHandleLocationHeapIndex (packed : Nat) : Nat :=
  packed % 2

/-- Reading the `handleOffset` bit-field back from the packed word. -/
def bindingHandleLocationHandleOffset (packed : Nat) : Nat :=
  packed / 2

/-! ## Descriptor table allocator -/

/-- Modelled from the spec: `LocationFor(setIndex, slotIndex, regionKind)`.
The body of `GetCPUDescriptorHandleForHeapStart` is not in the snapshot; the
spec gives the pure layout formula
`offset = setIndex × descriptorsPerSet × stride + slotIndex × stride`,
where `descriptorsPerSet` is `numDescriptorsPerSet_[regionKind]` and `stride`
is the driver-reported `descriptorHandleStrides_[regionKind]`. -/
def locationFor (descriptorsPerSet stride setIndex slotIndex : Nat) : Nat :=
  setIndex * descriptorsPerSet * stride + slotIndex * stride

/-- The CPU descriptor handle for the heap start of a descriptor set: the
region base advanced by `setIndex` descriptor-set strides, where the set stride
`descriptorSetStrides_[k]` equals `descriptorsPerSet × stride`. -/
def cpuDescriptorHandleForHeapStart (base descriptorsPerSet stride setIndex : Nat) : Nat :=
  base + setIndex * (descriptorsPerSet * stride)

/-! ## Heap state and the barrier tracker

The header fixes the member layout:

```cpp
std::vector<ID3D12Resource*> uavResourceHeap_;  // Heap of UAV resources that require a barrier
UINT                         uavResourceSetStride_ = 0;  // Number of (potential) UAV resources per descriptor set
std::vector<char>            barriers_;  // Packed buffer for dynamic struct { UINT N; D3D12_RESOURCE_BARRIER[N]; }
UINT                         barrierStride_ = 0;
```

`uavResourceHeap_` is a flat vector of `numSets × uavResourceSetStride_`
resource pointers (descriptor set `i` owns the contiguous slice of
`uavResourceSetStride_` entries starting at `i × uavResourceSetStride_`), and
`barriers_` holds one fixed-stride count-prefixed record per descriptor set
(set `i` occupies bytes `[i × barrierStride_, (i+1) × barrierStride_)`).  We
model each set's barrier record by the list of resources it names (its leading
count field is the list's length), and the packed buffer by the list of those
per-set records. -/

/-- The mutable state of a `D3D12ResourceHeap`.  Region capacities and strides
are fixed at construction; `uavResourceHeap`, `barriers` and `staleSets` evolve
under the binding operations. -/
structure HeapState where
  /-- Fixed capacity of the CBV/SRV/UAV descriptor region. -/
  viewRegionCapacity : Nat
  /-- Fixed capacity of the sampler descriptor region. -/
  samplerRegionCapacity : Nat
  /-- `numDescriptorSets_`: the fixed number of descriptor sets. -/
  numDescriptorSets : Nat
  /-- `uavResourceSetStride_`: number of (potential) UAV resources per set. -/
  uavResourceSetStride : Nat
  /-- `uavResourceHeap_`: flat per-set-strided vector of bound UAV resources
  (`none` = null pointer = unbound slot). -/
  uavResourceHeap : List (Option ResourceHandle)
  /-- `barriers_`: one count-prefixed barrier record per descriptor set,
  modelled as the list of resources each record names. -/
  barriers : List (List ResourceHandle)
  /-- Modelled from the spec: the per-set stale (dirty) flag driving the lazy
  barrier-buffer rebuild. -/
  staleSets : List Bool
deriving DecidableEq, Repr

/-- `HasBarriers` from the header: `barrierStride_ > 0`.  The barrier stride is
positive exactly when the layout contains UAV-capable slots, i.e. when
`uavResourceSetStride_ > 0`. -/
def HasBarriers (st : HeapState) : Bool :=
  st.uavResourceSetStride != 0

/-- Modelled from the spec: `ExchangeResource` (`ExchangeUAVResource` in the
header, whose body is not in the snapshot).  Looks up the previous resource
bound at the slot's location in `uavResourceHeap_`; a rebind to the same
resource is a no-op, otherwise the slot is overwritten and the owning set's
barrier buffer is marked stale. -/
def exchangeUAVResource (st : HeapState) (descriptorSet slot : Nat)
    (resource : Option ResourceHandle) : HeapState :=
  let idx := descriptorSet * st.uavResourceSetStride + slot
  let prev := st.uavResourceHeap.getD idx none
  if prev = resource then
    st
  else
    { st with
      uavResourceHeap := st.uavResourceHeap.set idx resource
      staleSets := st.staleSets.set descriptorSet true }

/-- The slice of `uavResourceHeap_` owned by one descriptor set, read slot by
slot. -/
def setSlots (st : HeapState) (descriptorSet : Nat) : List (Option ResourceHandle) :=
  (List.range st.uavResourceSetStride).map fun slot =>
    st.uavResourceHeap.getD (descriptorSet * st.uavResourceSetStride + slot) none

/-- The writable resources currently bound in a descriptor set: the non-null
entries of its slice of `uavResourceHeap_`. -/
def boundUAVsOfSet (st : HeapState) (descriptorSet : Nat) : List ResourceHandle :=
  (setSlots st descriptorSet).filterMap id

/-- Modelled from the spec: `UpdateBarriers(setIndex)` (body not in the
snapshot).  If the set's buffer is stale, walks the set's currently bound
writable resources, deduplicates by resource handle, rewrites the set's
count-prefixed barrier record and clears the stale flag; otherwise does
nothing. -/
def updateBarriers (st : HeapState) (descriptorSet : Nat) : HeapState :=
  if st.staleSets.getD descriptorSet false then
    { st with
      barriers := st.barriers.set descriptorSet (boundUAVsOfSet st descriptorSet).dedup
      staleSets := st.staleSets.set descriptorSet false }
  else
    st

/-- Modelled from the spec: `InsertResourceBarriers(commandList, setIndex)`
(body not in the snapshot).  When the heap tracks no UAV-capable slot at all
(`HasBarriers` is false, i.e. `barrierStride_ = 0`) nothing happens; otherwise
the set's barriers are lazily rebuilt and, if the resulting record is
non-empty, it is submitted to the command list as one batched barrier command.
The command list is modelled as the list of submitted batched commands. -/
def insertResourceBarriers (st : HeapState) (commandList : List (List ResourceHandle))
    (descriptorSet : Nat) : HeapState × List (List ResourceHandle) :=
  if HasBarriers st then
    let stNew := updateBarriers st descriptorSet
    let record := stNew.barriers.getD descriptorSet []
    (stNew, if record.isEmpty then commandList else commandList ++ [record])
  else
    (st, commandList)

/-! ## Resource view builder -/

/-- The four view kinds the builder dispatches on (`CreateShaderResourceView`,
`CreateUnorderedAccessView`, `CreateConstantBufferView`, `CreateSampler`). -/
inductive ViewKind where
  | srv
  | uav
  | cbv
  | sampler
deriving DecidableEq, Repr

/-- A logical resource-view description together with the consulted properties
of the underlying resource (declared extent and usage flags). -/
structure ResourceViewDesc where
  kind : ViewKind
  /-- Requested view byte offset into the resource. -/
  viewOffset : Nat
  /-- Requested view byte size. -/
  viewSize : Nat
  /-- The resource's declared byte extent. -/
  resourceExtent : Nat
  /-- Whether the resource was created with write-capable (UAV) usage. -/
  resourceHasWriteUsage : Bool
  /-- The underlying resource handle. -/
  resource : ResourceHandle
deriving DecidableEq, Repr

/-- The platform's minimum constant-buffer alignment
(`D3D12_CONSTANT_BUFFER_DATA_PLACEMENT_ALIGNMENT` = 256 bytes). -/
def minConstantBufferAlignment : Nat := 256

/-- The outcome of one `CreateView` call. -/
structure CreateViewResult where
  /-- Whether a view descriptor was written. -/
  success : Bool
  /-- Whether the written view is writable (participates in barrier
  tracking). -/
  isWritable : Bool
  /-- Number of native descriptor-creation calls performed (0 when validation
  rejects the description, 1 when a descriptor is written). -/
  nativeCalls : Nat
deriving DecidableEq, Repr

/-- Modelled from the spec: `CreateView` (the bodies of
`CreateShaderResourceView` / `CreateUnorderedAccessView` /
`CreateConstantBufferView` / `CreateSampler` are not in the snapshot).
Dispatches on the description's kind: SRVs validate the requested byte range
against the resource's extent; UAVs additionally require write-capable usage
and report `isWritable`; CBVs require the byte range to start at the minimum
constant-buffer alignment; samplers are stateless and always succeed.
Validation failure skips the native descriptor-creation call. -/
def createView (d : ResourceViewDesc) : CreateViewResult :=
  match d.kind with
  | .srv =>
      if d.viewOffset + d.viewSize ≤ d.resourceExtent then
        { success := true, isWritable := false, nativeCalls := 1 }
      else
        { success := false, isWritable := false, nativeCalls := 0 }
  | .uav =>
      if d.viewOffset + d.viewSize ≤ d.resourceExtent ∧ d.resourceHasWriteUsage then
        { success := true, isWritable := true, nativeCalls := 1 }
      else
        { success := false, isWritable := false, nativeCalls := 0 }
  | .cbv =>
      if d.viewOffset % minConstantBufferAlignment = 0 then
        { success := true, isWritable := false, nativeCalls := 1 }
      else
        { success := false, isWritable := false, nativeCalls := 0 }
  | .sampler => { success := true, isWritable := false, nativeCalls := 1 }

/-- Modelled from the spec: `CreateResourceViewHandles(device, firstDescriptor,
resourceViews)` (body not in the snapshot).  Applies `CreateView` across the
ordered batch starting at the given global slot index, advancing exactly one
slot per description regardless of per-view success, populating the slot only
on success, and returns the count of views actually written.  The descriptor
table is modelled by a populated-flag per global slot. -/
def createResourceViewHandles :
    List Bool → Nat → List ResourceViewDesc → List Bool × Nat
  | table, _, [] => (table, 0)
  | table, firstDescriptor, d :: ds =>
      let r := createView d
      let tableNext := if r.success then table.set firstDescriptor true else table
      let rest := createResourceViewHandles tableNext (firstDescriptor + 1) ds
      (rest.1, (if r.success then 1 else 0) + rest.2)

/-! ## Heap construction -/

/-- The recoverable error taxonomy of heap construction. -/
inductive HeapError where
  | resourceExhaustion
deriving DecidableEq, Repr

/-- Whether a slot of the layout lives in the sampler descriptor region (all
other kinds share the CBV/SRV/UAV region). -/
def slotInSamplerRegion (k : ViewKind) : Bool :=
  k == ViewKind.sampler

/-- Descriptors per set in the CBV/SRV/UAV region: the count of non-sampler
slots in the layout. -/
def numViewDescriptorsPerSet (layout : List ViewKind) : Nat :=
  layout.countP fun k => !slotInSamplerRegion k

/-- Descriptors per set in the sampler region: the count of sampler slots. -/
def numSamplerDescriptorsPerSet (layout : List ViewKind) : Nat :=
  layout.countP fun k => slotInSamplerRegion k

/-- UAV-capable (writable) slots per set: `uavResourceSetStride_`. -/
def numUAVSlotsPerSet (layout : List ViewKind) : Nat :=
  layout.countP fun k => k == ViewKind.uav

/-- Modelled from the spec: heap construction
(`D3D12ResourceHeap::D3D12ResourceHeap` / `CreateDescriptorHeap`, bodies not in
the snapshot).  Computes per region `descriptorsPerSet × numSets`, fails with a
resource-exhaustion error when either region's requested descriptor count
exceeds the platform-imposed maximum pool size, and otherwise allocates the
fixed-capacity regions, the per-set-strided UAV resource heap (all slots
unbound) and the empty per-set barrier records. -/
def constructHeap (maxDescriptorPoolSize : Nat) (layout : List ViewKind)
    (numSets : Nat) : Except HeapError HeapState :=
  let viewCount := numViewDescriptorsPerSet layout * numSets
  let samplerCount := numSamplerDescriptorsPerSet layout * numSets
  if viewCount > maxDescriptorPoolSize ∨ samplerCount > maxDescriptorPoolSize then
    .error .resourceExhaustion
  else
    .ok
      { viewRegionCapacity := viewCount
        samplerRegionCapacity := samplerCount
        numDescriptorSets := numSets
        uavResourceSetStride := numUAVSlotsPerSet layout
        uavResourceHeap := List.replicate (numSets * numUAVSlotsPerSet layout) none
        barriers := List.replicate numSets []
        staleSets := List.replicate numSets false }

/-! ## Sample heap states used to exercise the operations -/

/-- One descriptor set with two UAV-capable slots, both bound to resource `7`,
barrier buffer stale. -/
def twinSlotHeap : HeapState :=
  { viewRegionCapacity := 2, samplerRegionCapacity := 0, numDescriptorSets := 1,
    uavResourceSetStride := 2, uavResourceHeap := [some 7, some 7],
    barriers := [[]], staleSets := [true] }

/-- The same layout after both slots were unbound, barrier buffer stale and
still holding the outdated record for resource `7`. -/
def unboundTwinSlotHeap : HeapState :=
  { viewRegionCapacity := 2, samplerRegionCapacity := 0, numDescriptorSets := 1,
    uavResourceSetStride := 2, uavResourceHeap := [none, none],
    barriers := [[7]], staleSets := [true] }

/-- The heap produced by `constructHeap` for 4 descriptor sets with layout
`{SRV, UAV, Sampler}`: one UAV-capable slot per set, everything unbound. -/
def scenarioHeap0 : HeapState :=
  { viewRegionCapacity := 8, samplerRegionCapacity := 4, numDescriptorSets := 4,
    uavResourceSetStride := 1, uavResourceHeap := [none, none, none, none],
    barriers := [[], [], [], []], staleSets := [false, false, false, false] }

/-- `scenarioHeap0` after binding set 2's UAV slot to resource A (= 1). -/
def scenarioHeapA : HeapState :=
  exchangeUAVResource scenarioHeap0 2 0 (some 1)

/-- `scenarioHeapA` after rebinding set 2's UAV slot to resource B (= 2). -/
def scenarioHeapAB : HeapState :=
  exchangeUAVResource scenarioHeapA 2 0 (some 2)

/-- `scenarioHeap0` after binding set 2's UAV slot to resource `5`. -/
def boundOnceHeap : HeapState :=
  exchangeUAVResource scenarioHeap0 2 0 (some 5)

/-- Two single-UAV-slot sets: set 0 binds nothing (a read-only set, barrier
record in sync), set 1 binds resource `9`. -/
def readOnlySetHeap : HeapState :=
  { viewRegionCapacity := 4, samplerRegionCapacity := 0, numDescriptorSets := 2,
    uavResourceSetStride := 1, uavResourceHeap := [none, some 9],
    barriers := [[], [9]], staleSets := [false, false] }

/-- Two single-UAV-slot sets with set 0 stale (its record holds the outdated
resource `5` while slot 0 now binds `3`) and set 1 in sync with resource
`9`. -/
def isolationHeap : HeapState :=
  { viewRegionCapacity := 4, samplerRegionCapacity := 0, numDescriptorSets := 2,
    uavResourceSetStride := 1, uavResourceHeap := [some 3, some 9],
    barriers := [[5], [9]], staleSets := [true, false] }

end D3D12ResourceHeap

namespace D3D12ResourceHeap

/-- C2 helper: the quotient-remainder style uniqueness underlying the strided
layout. -/
theorem locationFor_eq_mul : ∀ dps stride s l : Nat,
    locationFor dps stride s l = stride * (s * dps + l) := by
  intro dps stride s l
  unfold locationFor
  ring

/-- Reading any index other than the written one through `getD` is unchanged by
`List.set`. -/
theorem getD_set_of_ne {α : Type} (l : List α) {i j : Nat} (a d : α) (h : i ≠ j) :
    (l.set i a).getD j d = l.getD j d := by
  rw [List.getD_eq_getElem?_getD, List.getD_eq_getElem?_getD, List.getElem?_set_ne h]

/-- Reading an in-range written index through `getD` yields the written
value. -/
theorem getD_set_self_of_lt {α : Type} (l : List α) {i : Nat} (a d : α)
    (h : i < l.length) : (l.set i a).getD i d = a := by
  rw [List.getD_eq_getElem?_getD, List.getElem?_set_eq_of_lt a h]
  rfl

/-- Reading an out-of-range index through `getD` yields the default, also after
a `List.set` at that index. -/
theorem getD_set_self_of_le {α : Type} (l : List α) {i : Nat} (a d : α)
    (h : l.length ≤ i) : (l.set i a).getD i d = d := by
  rw [List.getD_eq_getElem?_getD, List.getElem?_eq_none (by simpa using h)]
  rfl

/-- Membership in a set's bound-UAV list is exactly having some slot of that
set hold the resource. -/
theorem mem_boundUAVsOfSet {st : HeapState} {descriptorSet : Nat} {r : ResourceHandle} :
    r ∈ boundUAVsOfSet st descriptorSet ↔
      ∃ slot, slot < st.uavResourceSetStride ∧
        st.uavResourceHeap.getD
          (descriptorSet * st.uavResourceSetStride + slot) none = some r := by
  unfold boundUAVsOfSet setSlots
  simp only [List.mem_filterMap, List.mem_map, List.mem_range, id_eq]
  constructor
  · rintro ⟨o, ⟨slot, hslot, rfl⟩, ho⟩
    exact ⟨slot, hslot, ho⟩
  · rintro ⟨slot, hslot, h⟩
    exact ⟨some r, ⟨slot, hslot, h⟩, rfl⟩

/-- A set's bound-UAV list never has more entries than the per-set UAV
stride. -/
theorem length_boundUAVsOfSet_le (st : HeapState) (descriptorSet : Nat) :
    (boundUAVsOfSet st descriptorSet).length ≤ st.uavResourceSetStride := by
  unfold boundUAVsOfSet
  refine Nat.le_trans (List.length_filterMap_le _ _) ?_
  unfold setSlots
  simp

/-- On a stale set, `updateBarriers` rewrites that set's record to the
deduplicated list of its bound writable resources. -/
theorem updateBarriers_getD_of_stale (st : HeapState) (i : Nat)
    (hstale : st.staleSets.getD i false = true) (hi : i < st.barriers.length) :
    (updateBarriers st i).barriers.getD i [] = (boundUAVsOfSet st i).dedup := by
  unfold updateBarriers
  rw [if_pos hstale]
  exact getD_set_self_of_lt _ _ _ hi

/-- `updateBarriers` touches only `barriers_` and the stale flags. -/
theorem updateBarriers_preserves (st : HeapState) (descriptorSet : Nat) :
    (updateBarriers st descriptorSet).viewRegionCapacity = st.viewRegionCapacity ∧
    (updateBarriers st descriptorSet).samplerRegionCapacity = st.samplerRegionCapacity ∧
    (updateBarriers st descriptorSet).numDescriptorSets = st.numDescriptorSets ∧
    (updateBarriers st descriptorSet).uavResourceSetStride = st.uavResourceSetStride ∧
    (updateBarriers st descriptorSet).uavResourceHeap = st.uavResourceHeap := by
  unfold updateBarriers
  split <;> simp

/-- `exchangeUAVResource` touches only `uavResourceHeap_` and the stale
flags. -/
theorem exchangeUAVResource_preserves (st : HeapState) (descriptorSet slot : Nat)
    (r : Option ResourceHandle) :
    (exchangeUAVResource st descriptorSet slot r).viewRegionCapacity = st.viewRegionCapacity ∧
    (exchangeUAVResource st descriptorSet slot r).samplerRegionCapacity =
      st.samplerRegionCapacity ∧
    (exchangeUAVResource st descriptorSet slot r).numDescriptorSets = st.numDescriptorSets ∧
    (exchangeUAVResource st descriptorSet slot r).uavResourceSetStride =
      st.uavResourceSetStride ∧
    (exchangeUAVResource st descriptorSet slot r).barriers = st.barriers := by
  simp only [exchangeUAVResource]
  split <;> simp

end D3D12ResourceHeap

/-- C2: within the heap's fixed layout, the descriptor-location computation
`locationFor` is the pure strided formula and is injective on valid pairs: with
a positive per-descriptor stride and `slotIndex < descriptorsPerSet`, two pairs
mapping to the same offset are equal. -/
theorem C2_locationFor_injective (dps stride s₁ l₁ s₂ l₂ : Nat)
    (hstride : 0 < stride) (hl₁ : l₁ < dps) (hl₂ : l₂ < dps)
    (heq : D3D12ResourceHeap.locationFor dps stride s₁ l₁ =
           D3D12ResourceHeap.locationFor dps stride s₂ l₂) :
    s₁ = s₂ ∧ l₁ = l₂ := by
  rw [D3D12ResourceHeap.locationFor_eq_mul, D3D12ResourceHeap.locationFor_eq_mul] at heq
  have hkey : s₁ * dps + l₁ = s₂ * dps + l₂ := Nat.eq_of_mul_eq_mul_left hstride heq
  have hdps : 0 < dps := Nat.lt_of_le_of_lt (Nat.zero_le _) hl₁
  rw [Nat.mul_comm s₁ dps, Nat.mul_comm s₂ dps] at hkey
  have e₁ : (dps * s₁ + l₁) / dps = s₁ + l₁ / dps := Nat.mul_add_div hdps s₁ l₁
  have e₂ : (dps * s₂ + l₂) / dps = s₂ + l₂ / dps := Nat.mul_add_div hdps s₂ l₂
  rw [Nat.div_eq_of_lt hl₁, Nat.add_zero] at e₁
  rw [Nat.div_eq_of_lt hl₂, Nat.add_zero] at e₂
  rw [hkey] at e₁
  have hs : s₁ = s₂ := e₁.symm.trans e₂
  subst hs
  exact ⟨rfl, by omega⟩

/-- C2 witness: the theorem applied at the concrete layout
`descriptorsPerSet = 3`, `stride = 32`, at pair `(2, 1)`. -/
theorem C2_locationFor_injective_witness :
    D3D12ResourceHeap.locationFor 3 32 2 1 = D3D12ResourceHeap.locationFor 3 32 2 1 ∧
    (2 = 2 ∧ 1 = 1) :=
  ⟨rfl, C2_locationFor_injective 3 32 2 1 2 1 (by decide) (by decide) (by decide) rfl⟩

/-- C9: the `BindingHandleLocation` bit-fields store the region selector modulo
2 and the handle offset modulo `2 ^ 31`: reading either field back from the
packed word yields exactly those residues, so an offset of `2 ^ 31` or greater
is silently truncated (the stored offset differs from the requested one). -/
theorem C9_bindingHandleLocation_truncates (heapIndex handleOffset : Nat) :
    D3D12ResourceHeap.bindingHandleLocationHeapIndex
        (D3D12ResourceHeap.bindingHandleLocationPack heapIndex handleOffset) = heapIndex % 2 ∧
    D3D12ResourceHeap.bindingHandleLocationHandleOffset
        (D3D12ResourceHeap.bindingHandleLocationPack heapIndex handleOffset) =
      handleOffset % 2 ^ 31 ∧
    (2 ^ 31 ≤ handleOffset →
      D3D12ResourceHeap.bindingHandleLocationHandleOffset
        (D3D12ResourceHeap.bindingHandleLocationPack heapIndex handleOffset) ≠ handleOffset) := by
  unfold D3D12ResourceHeap.bindingHandleLocationPack
    D3D12ResourceHeap.bindingHandleLocationHeapIndex
    D3D12ResourceHeap.bindingHandleLocationHandleOffset
  have hpow : (2 : Nat) ^ 31 = 2147483648 := by norm_num
  rw [hpow]
  refine ⟨by omega, by omega, ?_⟩
  intro hbig
  omega

/-- C9 witness: packing the offset `2 ^ 31 + 5` (with heap index 1) stores
`5`, not the requested offset. -/
theorem C9_bindingHandleLocation_truncates_witness :
    D3D12ResourceHeap.bindingHandleLocationHandleOffset
        (D3D12ResourceHeap.bindingHandleLocationPack 1 (2 ^ 31 + 5)) = (2 ^ 31 + 5) % 2 ^ 31 ∧
    D3D12ResourceHeap.bindingHandleLocationHandleOffset
        (D3D12ResourceHeap.bindingHandleLocationPack 1 (2 ^ 31 + 5)) ≠ 2 ^ 31 + 5 :=
  ⟨(C9_bindingHandleLocation_truncates 1 (2 ^ 31 + 5)).2.1,
   (C9_bindingHandleLocation_truncates 1 (2 ^ 31 + 5)).2.2 (by norm_num)⟩

open D3D12ResourceHeap

/-- C1: running `updateBarriers` on a stale descriptor set rewrites its packed
barrier record to exactly one barrier per distinct writable resource currently
bound in the set: the record has no duplicates, its members are exactly the
bound writable resources (so a resource bound in two slots yields one barrier),
and a set with all writable slots unbound gets an empty record. -/
theorem C1_updateBarriers_dedup (st : HeapState) (i : Nat)
    (hstale : st.staleSets.getD i false = true)
    (hi : i < st.barriers.length) :
    ((updateBarriers st i).barriers.getD i []).Nodup ∧
    (∀ r, r ∈ (updateBarriers st i).barriers.getD i [] ↔ r ∈ boundUAVsOfSet st i) ∧
    (∀ r, r ∈ boundUAVsOfSet st i →
        List.count r ((updateBarriers st i).barriers.getD i []) = 1) ∧
    (boundUAVsOfSet st i = [] → (updateBarriers st i).barriers.getD i [] = []) := by
  rw [D3D12ResourceHeap.updateBarriers_getD_of_stale st i hstale hi]
  refine ⟨List.nodup_dedup _, fun r => List.mem_dedup,
    fun r hr => List.count_eq_one_of_mem (List.nodup_dedup _) (List.mem_dedup.2 hr),
    fun h => by rw [h]; rfl⟩

/-- C1 witness: the theorem applied to `twinSlotHeap` (resource 7 bound to both
slots of the single stale set: one barrier for 7) and to `unboundTwinSlotHeap`
(both slots unbound: empty record). -/
theorem C1_updateBarriers_dedup_witness :
    ((updateBarriers twinSlotHeap 0).barriers.getD 0 [] = [7] ∧
      List.count 7 ((updateBarriers twinSlotHeap 0).barriers.getD 0 []) = 1) ∧
    (updateBarriers unboundTwinSlotHeap 0).barriers.getD 0 [] = [] :=
  ⟨⟨by decide,
    (C1_updateBarriers_dedup twinSlotHeap 0 (by decide) (by decide)).2.2.1 7 (by decide)⟩,
   (C1_updateBarriers_dedup unboundTwinSlotHeap 0 (by decide) (by decide)).2.2.2 (by decide)⟩

/-- C5: rebinding the writable resource already bound at a slot is a complete
no-op — the resulting heap state (barrier buffers, stale flags, resource heap)
is the original state, so nothing is marked stale and nothing is
reallocated. -/
theorem C5_rebind_same_noop (st : HeapState) (descriptorSet slot : Nat)
    (r : Option ResourceHandle)
    (h : st.uavResourceHeap.getD
          (descriptorSet * st.uavResourceSetStride + slot) none = r) :
    exchangeUAVResource st descriptorSet slot r = st := by
  simp only [exchangeUAVResource]
  rw [if_pos h]

/-- C5 witness: after binding resource `5` to set 2's UAV slot, binding `5`
there again leaves the heap state unchanged. -/
theorem C5_rebind_same_noop_witness :
    exchangeUAVResource boundOnceHeap 2 0 (some 5) = boundOnceHeap :=
  C5_rebind_same_noop boundOnceHeap 2 0 (some 5) (by decide)

/-- C10: each descriptor set's barrier record stays within its own fixed-stride
region of the shared packed buffer: rebuilding set `i`'s barriers never
modifies set `j`'s record (`j ≠ i`), and the leading count of set `i`'s record
(its length) never exceeds the per-set maximum `uavResourceSetStride_`
provided it did not before. -/
theorem C10_barrier_isolation (st : HeapState) (i j : Nat) (hij : j ≠ i)
    (hinv : (st.barriers.getD i []).length ≤ st.uavResourceSetStride) :
    (updateBarriers st i).barriers.getD j [] = st.barriers.getD j [] ∧
    ((updateBarriers st i).barriers.getD i []).length ≤ st.uavResourceSetStride := by
  unfold updateBarriers
  by_cases hstale : st.staleSets.getD i false = true
  · rw [if_pos hstale]
    refine ⟨getD_set_of_ne _ _ _ (Ne.symm hij), ?_⟩
    by_cases hlen : i < st.barriers.length
    · rw [getD_set_self_of_lt _ _ _ hlen]
      exact Nat.le_trans (List.Sublist.length_le (List.dedup_sublist _))
        (length_boundUAVsOfSet_le st i)
    · rw [getD_set_self_of_le _ _ _ (Nat.le_of_not_lt hlen)]
      exact Nat.zero_le _
  · rw [if_neg hstale]
    exact ⟨rfl, hinv⟩

/-- C10 witness: rebuilding stale set 0 of `isolationHeap` leaves set 1's
record `[9]` untouched and keeps set 0's count within the stride of 1. -/
theorem C10_barrier_isolation_witness :
    (updateBarriers isolationHeap 0).barriers.getD 1 [] =
      isolationHeap.barriers.getD 1 [] ∧
    ((updateBarriers isolationHeap 0).barriers.getD 0 []).length ≤
      isolationHeap.uavResourceSetStride :=
  C10_barrier_isolation isolationHeap 0 1 (by decide) (by decide)

/-- C4: the per-slot transition `Bound(r) → Bound(r')` with `r ≠ r'`: after the
exchange, `r` is gone from the set's tracked writable resources (when no other
slot of the same set references `r`), `r'` is tracked, and the subsequent lazy
rebuild produces exactly one barrier targeting `r'`. -/
theorem C4_exchange_transition (st : HeapState) (i slot : Nat) (r rNew : ResourceHandle)
    (hslot : slot < st.uavResourceSetStride)
    (hlen : st.uavResourceHeap.length = st.numDescriptorSets * st.uavResourceSetStride)
    (hi : i < st.numDescriptorSets)
    (histale : i < st.staleSets.length)
    (hib : i < st.barriers.length)
    (hprev : st.uavResourceHeap.getD (i * st.uavResourceSetStride + slot) none = some r)
    (hne : r ≠ rNew)
    (hother : ∀ k < st.uavResourceSetStride, k ≠ slot →
        st.uavResourceHeap.getD (i * st.uavResourceSetStride + k) none ≠ some r) :
    rNew ∈ boundUAVsOfSet (exchangeUAVResource st i slot (some rNew)) i ∧
    r ∉ boundUAVsOfSet (exchangeUAVResource st i slot (some rNew)) i ∧
    List.count rNew
      ((updateBarriers (exchangeUAVResource st i slot (some rNew)) i).barriers.getD i [])
      = 1 := by
  have hidx : i * st.uavResourceSetStride + slot < st.uavResourceHeap.length := by
    rw [hlen]
    calc i * st.uavResourceSetStride + slot
        < i * st.uavResourceSetStride + st.uavResourceSetStride :=
          Nat.add_lt_add_left hslot _
      _ = (i + 1) * st.uavResourceSetStride := (Nat.succ_mul i _).symm
      _ ≤ st.numDescriptorSets * st.uavResourceSetStride :=
          Nat.mul_le_mul_right _ (Nat.succ_le_of_lt hi)
  have hchange : ¬ (st.uavResourceHeap.getD (i * st.uavResourceSetStride + slot) none
      = some rNew) := by
    rw [hprev]
    intro h
    exact hne (Option.some.inj h)
  have hst : exchangeUAVResource st i slot (some rNew) =
      { st with
        uavResourceHeap := st.uavResourceHeap.set (i * st.uavResourceSetStride + slot)
          (some rNew)
        staleSets := st.staleSets.set i true } := by
    simp only [exchangeUAVResource]
    rw [if_neg hchange]
  have hmemNew : rNew ∈ boundUAVsOfSet (exchangeUAVResource st i slot (some rNew)) i := by
    rw [hst, mem_boundUAVsOfSet]
    exact ⟨slot, hslot, getD_set_self_of_lt _ _ _ hidx⟩
  refine ⟨hmemNew, ?_, ?_⟩
  · rw [hst, mem_boundUAVsOfSet]
    rintro ⟨k, hk, hkval⟩
    by_cases hks : k = slot
    · subst hks
      rw [getD_set_self_of_lt _ _ _ hidx] at hkval
      exact hne (Option.some.inj hkval).symm
    · rw [getD_set_of_ne _ _ _ (fun h => hks (Nat.add_left_cancel h).symm)] at hkval
      exact hother k hk hks hkval
  · have hstale : (exchangeUAVResource st i slot (some rNew)).staleSets.getD i false
        = true := by
      rw [hst]
      exact getD_set_self_of_lt _ _ _ histale
    have hb : i < (exchangeUAVResource st i slot (some rNew)).barriers.length := by
      rw [hst]
      exact hib
    rw [updateBarriers_getD_of_stale _ i hstale hb]
    exact List.count_eq_one_of_mem (List.nodup_dedup _) (List.mem_dedup.2 hmemNew)

/-- C4 witness: the heap for 4 sets × {SRV, UAV, Sampler} (as built by
`constructHeap`), with set 2's UAV slot bound to A (= 1), then B (= 2), then
back to A.  The theorem is applied to the final transition `Bound(B) →
Bound(A)`: A is tracked, B is not, the rebuilt record carries exactly one
barrier for A, and the final tracked writable set is exactly `[A]`. -/
theorem C4_exchange_transition_witness :
    constructHeap 64 [ViewKind.srv, ViewKind.uav, ViewKind.sampler] 4 =
      Except.ok scenarioHeap0 ∧
    boundUAVsOfSet (exchangeUAVResource scenarioHeapAB 2 0 (some 1)) 2 = [1] ∧
    (1 ∈ boundUAVsOfSet (exchangeUAVResource scenarioHeapAB 2 0 (some 1)) 2 ∧
     2 ∉ boundUAVsOfSet (exchangeUAVResource scenarioHeapAB 2 0 (some 1)) 2 ∧
     List.count 1
       ((updateBarriers (exchangeUAVResource scenarioHeapAB 2 0 (some 1)) 2).barriers.getD
         2 []) = 1) :=
  ⟨rfl, by decide,
   C4_exchange_transition scenarioHeapAB 2 0 2 1 (by decide) (by decide) (by decide)
     (by decide) (by decide) (by decide) (by decide) (by decide)⟩

/-- C6: a descriptor set that references zero writable resources has an empty
barrier record, and `insertResourceBarriers` submits no native barrier command:
the command list is returned untouched. -/
theorem C6_readonly_no_native_calls (st : HeapState)
    (commandList : List (List ResourceHandle)) (i : Nat)
    (hempty : boundUAVsOfSet st i = [])
    (hsync : st.staleSets.getD i false = false →
        st.barriers.getD i [] = (boundUAVsOfSet st i).dedup)
    (hzero : st.uavResourceSetStride = 0 → st.barriers.getD i [] = []) :
    (insertResourceBarriers st commandList i).2 = commandList ∧
    (insertResourceBarriers st commandList i).1.barriers.getD i [] = [] := by
  simp only [insertResourceBarriers]
  by_cases hhb : HasBarriers st = true
  · rw [if_pos hhb]
    by_cases hstale : st.staleSets.getD i false = true
    · have hrec : (updateBarriers st i).barriers.getD i [] = [] := by
        by_cases hlen : i < st.barriers.length
        · rw [updateBarriers_getD_of_stale st i hstale hlen, hempty]
          rfl
        · unfold updateBarriers
          rw [if_pos hstale]
          exact getD_set_self_of_le _ _ _ (Nat.le_of_not_lt hlen)
      rw [hrec]
      exact ⟨rfl, rfl⟩
    · have hstaleF : st.staleSets.getD i false = false := by
        simp only [Bool.not_eq_true] at hstale
        exact hstale
      have hub : updateBarriers st i = st := by
        unfold updateBarriers
        rw [if_neg hstale]
      have hrec : st.barriers.getD i [] = [] := by
        rw [hsync hstaleF, hempty]
        rfl
      rw [hub, hrec]
      exact ⟨rfl, rfl⟩
  · rw [if_neg hhb]
    have hstride : st.uavResourceSetStride = 0 := by
      simp only [HasBarriers, bne_iff_ne, ne_eq, Bool.not_eq_true, Decidable.not_not] at hhb
      exact hhb
    exact ⟨rfl, hzero hstride⟩

/-- C6 witness: set 0 of `readOnlySetHeap` binds nothing; inserting its
barriers leaves the command list `[[42]]` untouched and its record empty. -/
theorem C6_readonly_no_native_calls_witness :
    (insertResourceBarriers readOnlySetHeap [[42]] 0).2 = [[42]] ∧
    (insertResourceBarriers readOnlySetHeap [[42]] 0).1.barriers.getD 0 [] = [] :=
  C6_readonly_no_native_calls readOnlySetHeap [[42]] 0 (by decide) (by decide) (by decide)

namespace D3D12ResourceHeap

/-- The batch count returned by `createResourceViewHandles` is the number of
descriptions whose `createView` succeeds. -/
theorem createResourceViewHandles_count (vs : List ResourceViewDesc) :
    ∀ (t : List Bool) (f : Nat),
      (createResourceViewHandles t f vs).2 =
        vs.countP fun d => (createView d).success := by
  induction vs with
  | nil => intro t f; rfl
  | cons d ds ih =>
      intro t f
      simp only [createResourceViewHandles]
      rw [ih, List.countP_cons]
      by_cases hs : (createView d).success = true
      · rw [if_pos hs]
        omega
      · rw [if_neg hs]
        omega

/-- Slots before the batch's first descriptor are never touched. -/
theorem createResourceViewHandles_getD_lower (vs : List ResourceViewDesc) :
    ∀ (t : List Bool) (f j : Nat), j < f →
      (createResourceViewHandles t f vs).1.getD j false = t.getD j false := by
  induction vs with
  | nil => intro t f j hj; rfl
  | cons d ds ih =>
      intro t f j hj
      simp only [createResourceViewHandles]
      rw [ih _ (f + 1) j (Nat.lt_succ_of_lt hj)]
      by_cases hs : (createView d).success = true
      · rw [if_pos hs]
        exact getD_set_of_ne _ _ _ (by omega)
      · rw [if_neg hs]

/-- Slots at or past the end of the batch are never touched: the batch
advances exactly one slot per description. -/
theorem createResourceViewHandles_getD_upper (vs : List ResourceViewDesc) :
    ∀ (t : List Bool) (f j : Nat), f + vs.length ≤ j →
      (createResourceViewHandles t f vs).1.getD j false = t.getD j false := by
  induction vs with
  | nil => intro t f j hj; rfl
  | cons d ds ih =>
      intro t f j hj
      simp only [createResourceViewHandles, List.length_cons] at hj ⊢
      rw [ih _ (f + 1) j (by omega)]
      by_cases hs : (createView d).success = true
      · rw [if_pos hs]
        exact getD_set_of_ne _ _ _ (by omega)
      · rw [if_neg hs]

/-- The slot of a description that fails validation is left exactly as it
was. -/
theorem createResourceViewHandles_getD_of_failed (vs : List ResourceViewDesc) :
    ∀ (t : List Bool) (f k : Nat) (hk : k < vs.length),
      (createView (vs.get ⟨k, hk⟩)).success = false →
      (createResourceViewHandles t f vs).1.getD (f + k) false = t.getD (f + k) false := by
  induction vs with
  | nil => intro t f k hk; exact absurd hk (Nat.not_lt_zero k)
  | cons d ds ih =>
      intro t f k hk hfail
      simp only [createResourceViewHandles]
      cases k with
      | zero =>
          have hd : (createView d).success = false := hfail
          have hnd : ¬((createView d).success = true) := by
            rw [hd]
            exact Bool.false_ne_true
          rw [if_neg hnd, Nat.add_zero]
          exact createResourceViewHandles_getD_lower ds t (f + 1) f (Nat.lt_succ_self f)
      | succ k' =>
          have hk' : k' < ds.length := by
            simpa using Nat.succ_lt_succ_iff.mp (by simpa using hk)
          have hfail' : (createView (ds.get ⟨k', hk'⟩)).success = false := hfail
          rw [show f + (k' + 1) = (f + 1) + k' by omega]
          rw [ih _ (f + 1) k' hk' hfail']
          by_cases hs : (createView d).success = true
          · rw [if_pos hs]
            exact getD_set_of_ne _ _ _ (by omega)
          · rw [if_neg hs]

end D3D12ResourceHeap

/-- C3: `createResourceViewHandles` over a batch advances exactly one slot per
description regardless of per-view success (slots outside the batch's window
are untouched), returns the number of views actually written (the count of
descriptions passing validation), and leaves the slot of every failed
description exactly as it was, with no exception aborting the batch (the
function is total). -/
theorem C3_batch_skip_and_count (t : List Bool) (f : Nat) (vs : List ResourceViewDesc) :
    (createResourceViewHandles t f vs).2 =
      (vs.countP fun d => (createView d).success) ∧
    (∀ j, j < f ∨ f + vs.length ≤ j →
        (createResourceViewHandles t f vs).1.getD j false = t.getD j false) ∧
    (∀ k, ∀ hk : k < vs.length, (createView (vs.get ⟨k, hk⟩)).success = false →
        (createResourceViewHandles t f vs).1.getD (f + k) false = t.getD (f + k) false) := by
  refine ⟨createResourceViewHandles_count vs t f, ?_, ?_⟩
  · intro j hj
    cases hj with
    | inl h => exact createResourceViewHandles_getD_lower vs t f j h
    | inr h => exact createResourceViewHandles_getD_upper vs t f j h
  · intro k hk hfail
    exact createResourceViewHandles_getD_of_failed vs t f k hk hfail

/-- C3 witness: a batch of 3 descriptions whose middle SRV has a byte range
exceeding its resource's extent returns 3 − 1 = 2, and slot 1 stays
unpopulated. -/
theorem C3_batch_skip_and_count_witness :
    (createResourceViewHandles [false, false, false, false] 0
      [⟨ViewKind.srv, 0, 16, 64, false, 3⟩, ⟨ViewKind.srv, 32, 64, 64, false, 4⟩,
       ⟨ViewKind.sampler, 0, 0, 0, false, 5⟩]).2 = 2 ∧
    (createResourceViewHandles [false, false, false, false] 0
      [⟨ViewKind.srv, 0, 16, 64, false, 3⟩, ⟨ViewKind.srv, 32, 64, 64, false, 4⟩,
       ⟨ViewKind.sampler, 0, 0, 0, false, 5⟩]).1.getD 1 false = false :=
  ⟨(C3_batch_skip_and_count [false, false, false, false] 0
      [⟨ViewKind.srv, 0, 16, 64, false, 3⟩, ⟨ViewKind.srv, 32, 64, 64, false, 4⟩,
       ⟨ViewKind.sampler, 0, 0, 0, false, 5⟩]).1.trans (by decide),
   ((C3_batch_skip_and_count [false, false, false, false] 0
      [⟨ViewKind.srv, 0, 16, 64, false, 3⟩, ⟨ViewKind.srv, 32, 64, 64, false, 4⟩,
       ⟨ViewKind.sampler, 0, 0, 0, false, 5⟩]).2.2 1 (by decide) (by decide)).trans
     (by decide)⟩

/-- C7: a constant-buffer view whose byte offset violates the platform's
minimum constant-buffer alignment is rejected: `createView` reports failure,
performs zero native descriptor-creation calls, and running it through a batch
leaves the target slot (indeed the whole table) unchanged with a written count
of 0. -/
theorem C7_cbv_misaligned_rejected (d : ResourceViewDesc) (t : List Bool) (f : Nat)
    (hk : d.kind = ViewKind.cbv)
    (hal : d.viewOffset % minConstantBufferAlignment ≠ 0) :
    (createView d).success = false ∧
    (createView d).nativeCalls = 0 ∧
    (createResourceViewHandles t f [d]).1 = t ∧
    (createResourceViewHandles t f [d]).2 = 0 := by
  have hcv : createView d = { success := false, isWritable := false, nativeCalls := 0 } := by
    simp only [createView, hk]
    rw [if_neg hal]
  have hbatch : createResourceViewHandles t f [d] = (t, 0) := by
    simp [createResourceViewHandles, hcv]
  exact ⟨by rw [hcv], by rw [hcv], by rw [hbatch], by rw [hbatch]⟩

/-- C7 witness: a constant-buffer view at byte offset 100 (256-byte alignment
required) is rejected, makes no native call, and leaves the table empty. -/
theorem C7_cbv_misaligned_rejected_witness :
    (createView ⟨ViewKind.cbv, 100, 256, 1024, false, 0⟩).success = false ∧
    (createView ⟨ViewKind.cbv, 100, 256, 1024, false, 0⟩).nativeCalls = 0 ∧
    (createResourceViewHandles [false] 0 [⟨ViewKind.cbv, 100, 256, 1024, false, 0⟩]).1 =
      [false] ∧
    (createResourceViewHandles [false] 0 [⟨ViewKind.cbv, 100, 256, 1024, false, 0⟩]).2 = 0 :=
  C7_cbv_misaligned_rejected ⟨ViewKind.cbv, 100, 256, 1024, false, 0⟩ [false] 0 rfl
    (by decide)

/-- C8: heap construction fails with the resource-exhaustion error exactly when
some region's requested descriptor count (`descriptorsPerSet × numSets`)
exceeds the platform-imposed maximum descriptor-pool size; on success the
recorded region capacities equal the requested counts, and they are fixed for
the heap's lifetime (no binding or barrier operation changes them). -/
theorem C8_construct_exhaustion (maxPool : Nat) (layout : List ViewKind) (numSets : Nat) :
    (constructHeap maxPool layout numSets =
        Except.error HeapError.resourceExhaustion ↔
      numViewDescriptorsPerSet layout * numSets > maxPool ∨
      numSamplerDescriptorsPerSet layout * numSets > maxPool) ∧
    (∀ h : HeapState, constructHeap maxPool layout numSets = Except.ok h →
      h.viewRegionCapacity = numViewDescriptorsPerSet layout * numSets ∧
      h.samplerRegionCapacity = numSamplerDescriptorsPerSet layout * numSets ∧
      h.numDescriptorSets = numSets ∧
      h.uavResourceSetStride = numUAVSlotsPerSet layout ∧
      (∀ i slot r,
        (exchangeUAVResource h i slot r).viewRegionCapacity = h.viewRegionCapacity ∧
        (exchangeUAVResource h i slot r).samplerRegionCapacity =
          h.samplerRegionCapacity) ∧
      (∀ i,
        (updateBarriers h i).viewRegionCapacity = h.viewRegionCapacity ∧
        (updateBarriers h i).samplerRegionCapacity = h.samplerRegionCapacity)) := by
  constructor
  · unfold constructHeap
    by_cases hcond : numViewDescriptorsPerSet layout * numSets > maxPool ∨
        numSamplerDescriptorsPerSet layout * numSets > maxPool
    · rw [if_pos hcond]
      simp [hcond]
    · rw [if_neg hcond]
      simp [hcond]
  · intro h hok
    unfold constructHeap at hok
    by_cases hcond : numViewDescriptorsPerSet layout * numSets > maxPool ∨
        numSamplerDescriptorsPerSet layout * numSets > maxPool
    · rw [if_pos hcond] at hok
      exact absurd hok (by simp)
    · rw [if_neg hcond] at hok
      obtain rfl := Except.ok.inj hok
      refine ⟨rfl, rfl, rfl, rfl, ?_, ?_⟩
      · intro i slot r
        exact ⟨(D3D12ResourceHeap.exchangeUAVResource_preserves _ i slot r).1,
          (D3D12ResourceHeap.exchangeUAVResource_preserves _ i slot r).2.1⟩
      · intro i
        exact ⟨(D3D12ResourceHeap.updateBarriers_preserves _ i).1,
          (D3D12ResourceHeap.updateBarriers_preserves _ i).2.1⟩

/-- C8 witness: 4 sets × layout {SRV, UAV, Sampler} need 10 view-region
descriptors for 5 sets, which exceeds a pool limit of 8 and fails with
resource exhaustion; with limit 64 and 4 sets construction succeeds and
records capacity 8 for the view region. -/
theorem C8_construct_exhaustion_witness :
    constructHeap 8 [ViewKind.srv, ViewKind.uav, ViewKind.sampler] 5 =
      Except.error HeapError.resourceExhaustion ∧
    scenarioHeap0.viewRegionCapacity =
      numViewDescriptorsPerSet [ViewKind.srv, ViewKind.uav, ViewKind.sampler] * 4 :=
  ⟨(C8_construct_exhaustion 8 [ViewKind.srv, ViewKind.uav, ViewKind.sampler] 5).1.mpr
      (by decide),
   ((C8_construct_exhaustion 64 [ViewKind.srv, ViewKind.uav, ViewKind.sampler] 4).2
      scenarioHeap0 rfl).1⟩
